import Mathlib

/-!
Verification of the Battle Subway Helper frontend deduction logic
(frontend/src/App.jsx) and of the completion-search engine described by
the specification. The frontend state and its click handlers are embedded
as pure Lean functions over an explicit state record; the backend engine,
whose Python source is not part of the frontend sources, is modelled from
the specification where a claim needs it.
-/

/-- A candidate team-member configuration, as the frontend sees it:
a record with a numeric global identifier, a species string, an optional
held item and an optional pokedex number (absent when the JSON field is
not a number). All remaining display fields are payload the deduction
logic never inspects, so they are omitted from the embedding. -/
structure PokeSet where
  global_id : Nat
  species : String
  item : Option String
  dex_number : Option Int
deriving DecidableEq

/-- State of the App component: the loaded trainer pool, the ordered list
of confirmed global ids, the set of discarded global ids and the
show-discarded toggle. -/
structure AppState where
  poolSets : List PokeSet
  confirmed : List Nat
  discarded : Finset Nat
  showDiscarded : Bool
deriving DecidableEq

/-- JavaScript String.prototype.trim: strip whitespace from both ends. -/
def jsTrim (s : String) : String :=
  String.mk (((s.data.dropWhile Char.isWhitespace).reverse.dropWhile
      Char.isWhitespace).reverse)

/-- The trimmed item of a set, with a missing item read as the empty
string: the expression (set.item ?? "").trim() of confirmSet. -/
def itemKey (s : PokeSet) : String := jsTrim (s.item.getD "")

/-- Sort key used by poolSortedDex: the dex number when it is a number,
999999 otherwise. -/
def dexVal (s : PokeSet) : Int := s.dex_number.getD 999999

/-- Boolean comparison realising the comparator of poolSortedDex:
ascending dex value, ties broken by ascending global id. -/
def dexLe (a b : PokeSet) : Bool :=
  decide (dexVal a < dexVal b ∨ (dexVal a = dexVal b ∧ a.global_id ≤ b.global_id))

/-- Pool sorted by dex number then global id (the poolSortedDex memo). -/
def poolSortedDex (st : AppState) : List PokeSet :=
  st.poolSets.mergeSort dexLe

/-- Filter predicate of the visiblePool memo: drop confirmed sets, and
drop discarded sets unless the show-discarded toggle is on. -/
def keepVisible (st : AppState) (t : PokeSet) : Bool :=
  if t.global_id ∈ st.confirmed then false
  else if t.global_id ∈ st.discarded ∧ st.showDiscarded = false then false
  else true

/-- The visiblePool memo: sorted pool restricted by keepVisible. -/
def visiblePool (st : AppState) : List PokeSet :=
  (poolSortedDex st).filter (keepVisible st)

/-- The markSeen handler of the seen-list component: append the id unless
it is already present or four ids are already listed. -/
def markSeen (seen : List Nat) (g : Nat) : List Nat :=
  if g ∈ seen then seen
  else if 4 ≤ seen.length then seen
  else seen ++ [g]

/-- The unmarkSeen handler: drop the id from the seen list. -/
def unmarkSeen (seen : List Nat) (g : Nat) : List Nat :=
  seen.filter (fun x => x != g)

/-- The resetAll handler: clear the trainer, the confirmed list, the
discarded set and the toggle. -/
def resetAll (_st : AppState) : AppState :=
  { poolSets := [], confirmed := [], discarded := ∅, showDiscarded := false }

/-- The toggleDiscard handler: flip membership of one id in the
discarded set. -/
def toggleDiscard (st : AppState) (g : Nat) : AppState :=
  { st with
    discarded :=
      if g ∈ st.discarded then st.discarded.erase g
      else insert g st.discarded }

/-- One iteration of the auto-discard loop of confirmSet over a pool
entry t, for freshly confirmed set s: skip s itself, discard other
variants of the same species, and apply the item clause when both
trimmed items are non-empty and equal. -/
def discardStep (s : PokeSet) (acc : Finset Nat) (t : PokeSet) : Finset Nat :=
  if t.global_id = s.global_id then acc
  else if t.species = s.species then insert t.global_id acc
  else if itemKey s ≠ "" ∧ itemKey t ≠ "" ∧ itemKey t = itemKey s then
    insert t.global_id acc
  else acc

/-- The auto-discard loop of confirmSet folded over the whole pool. -/
def autoDiscard (pool : List PokeSet) (s : PokeSet) (d : Finset Nat) : Finset Nat :=
  pool.foldl (discardStep s) d

/-- The confirmSet handler: a no-op when four sets are already confirmed
or the clicked set is currently discarded; otherwise append its global id
to the confirmed list and run the auto-discard rules over the pool. The
null guard of the handler is rendered by taking a genuine set argument. -/
def confirmSet (st : AppState) (s : PokeSet) : AppState :=
  if 4 ≤ st.confirmed.length then st
  else if s.global_id ∈ st.discarded then st
  else
    { st with
      confirmed := st.confirmed ++ [s.global_id]
      discarded := autoDiscard st.poolSets s st.discarded }

/-- The removeConfirmed handler: keep every confirmed id different from
the removed one; the discarded set is not touched. -/
def removeConfirmed (st : AppState) (g : Nat) : AppState :=
  { st with confirmed := st.confirmed.filter (fun x => x != g) }

/-- Condition under which confirming s discards pool entry t: t is a
different entry and either shares the species of s or shares its
non-empty trimmed item. -/
def discardCond (s t : PokeSet) : Prop :=
  t.global_id ≠ s.global_id ∧
    (t.species = s.species ∨
      (itemKey s ≠ "" ∧ itemKey t ≠ "" ∧ itemKey t = itemKey s))

instance (s t : PokeSet) : Decidable (discardCond s t) := by
  unfold discardCond; infer_instance

/-- Invariant of the seen and confirmed lists: at most four ids, all
pairwise distinct. -/
def teamInv (l : List Nat) : Prop := l.length ≤ 4 ∧ l.Nodup

instance (l : List Nat) : Decidable (teamInv l) := by
  unfold teamInv; infer_instance

/-- Structured outcomes of the completion-search engine, from the error
taxonomy of the specification. -/
inductive SolveError where
  | UnknownSetId
  | ConflictingObservation
  | Cancelled
deriving DecidableEq

/-- Successful result of the completion-search engine: the exact number
of legal completions and the ids that appear in at least one of them
beyond the confirmed ones. -/
structure SolveResult where
  completion_count : Nat
  possible_remaining_ids : List Nat
deriving DecidableEq

/-- Resolve a global id inside a pool. -/
def findSet (pool : List PokeSet) (g : Nat) : Option PokeSet :=
  pool.find? (fun t => t.global_id == g)

/-- A full team is legal when no two members share a species and no two
members share a non-empty trimmed item. -/
def legalTeam (team : List PokeSet) : Bool :=
  decide (team.map PokeSet.species).Nodup &&
    decide ((team.filter (fun t => itemKey t != "")).map itemKey).Nodup

/-- Modelled from the spec: the completion-search engine solve of the
backend (the FastAPI service of src/main.py, whose source is not among
the provided frontend files). Per the specification, an id of seen_ids
that does not resolve in the pool fails with UnknownSetId; two entries
sharing a species_key fail with ConflictingObservation; otherwise the
result counts the legal completions, where a completion is a sublist of
the pool of team_size sets containing every confirmed id with no two
members sharing a species_key and no two sharing a non-empty item_key,
and lists the ids of completion members beyond the confirmed ids. -/
def solve (pool : List PokeSet) (teamSize : Nat) (confirmedIds : List Nat) :
    Except SolveError SolveResult :=
  if confirmedIds.any (fun g => (findSet pool g).isNone) then
    .error .UnknownSetId
  else if ¬ (confirmedIds.filterMap (fun g => (findSet pool g).map PokeSet.species)).Nodup then
    .error .ConflictingObservation
  else
    let isCompletion : List PokeSet → Bool := fun team =>
      team.length == teamSize &&
        confirmedIds.all (fun g => team.any (fun t => t.global_id == g)) &&
        legalTeam team
    let completions := pool.sublists.filter isCompletion
    .ok { completion_count := completions.length
          possible_remaining_ids :=
            ((completions.map (fun team => team.map PokeSet.global_id)).flatten.filter
              (fun g => !(confirmedIds.contains g))).dedup }

/-- Concrete fixture sets used as witness inputs. -/
def fixA1 : PokeSet :=
  { global_id := 1, species := "Pikachu", item := some "X", dex_number := some 25 }

/-- Concrete fixture set: same species as fixA1, different item. -/
def fixA2 : PokeSet :=
  { global_id := 2, species := "Pikachu", item := some "Y", dex_number := some 25 }

/-- Concrete fixture set: different species, same item as fixA1. -/
def fixB1 : PokeSet :=
  { global_id := 3, species := "Eevee", item := some "X", dex_number := some 133 }

/-- Concrete fixture set: different species and item, no dex number. -/
def fixC1 : PokeSet :=
  { global_id := 4, species := "Snorlax", item := some "Z", dex_number := none }

/-- Concrete fixture set: empty item after trimming. -/
def fixD1 : PokeSet :=
  { global_id := 5, species := "Togepi", item := some "  ", dex_number := some 175 }

/-- Concrete fixture state holding the five fixture sets, with one id
discarded and nothing confirmed. -/
def fixState : AppState :=
  { poolSets := [fixA1, fixA2, fixB1, fixC1, fixD1],
    confirmed := [], discarded := {4}, showDiscarded := false }

/-- State exhibiting the failure of invariant preservation for
confirmSet: the Pikachu fixture is already confirmed, yet its id is not
discarded, so it can be confirmed again. -/
def badState : AppState :=
  { poolSets := [fixA1], confirmed := [1], discarded := ∅, showDiscarded := false }

/-- Membership after one auto-discard loop iteration: the accumulator
plus the entry of this iteration exactly when the discard condition
holds for it. -/
theorem mem_discardStep (s t : PokeSet) (d : Finset Nat) (g : Nat) :
    g ∈ discardStep s d t ↔ g ∈ d ∨ (t.global_id = g ∧ discardCond s t) := by
  unfold discardStep discardCond
  split_ifs with h1 h2 h3
  · simp [h1]
  · rw [Finset.mem_insert]
    constructor
    · rintro (rfl | hd)
      · exact Or.inr ⟨rfl, h1, Or.inl h2⟩
      · exact Or.inl hd
    · rintro (hd | ⟨rfl, -, -⟩)
      · exact Or.inr hd
      · exact Or.inl rfl
  · rw [Finset.mem_insert]
    constructor
    · rintro (rfl | hd)
      · exact Or.inr ⟨rfl, h1, Or.inr h3⟩
      · exact Or.inl hd
    · rintro (hd | ⟨rfl, -, -⟩)
      · exact Or.inr hd
      · exact Or.inl rfl
  · constructor
    · exact fun hd => Or.inl hd
    · rintro (hd | ⟨-, -, hsp | hit⟩)
      · exact hd
      · exact absurd hsp h2
      · exact absurd hit h3

/-- Membership after the whole auto-discard loop: the previous discarded
set plus every pool entry satisfying the discard condition. -/
theorem mem_autoDiscard (s : PokeSet) (g : Nat) :
    ∀ (pool : List PokeSet) (d : Finset Nat),
      g ∈ autoDiscard pool s d ↔
        g ∈ d ∨ ∃ t ∈ pool, t.global_id = g ∧ discardCond s t := by
  intro pool
  induction pool with
  | nil => intro d; simp [autoDiscard]
  | cons t rest ih =>
    intro d
    have hfold : autoDiscard (t :: rest) s d = autoDiscard rest s (discardStep s d t) := rfl
    rw [hfold, ih, mem_discardStep]
    simp only [List.mem_cons, exists_eq_or_imp]
    tauto

/-- confirmSet never changes the loaded pool. -/
theorem confirmSet_poolSets (st : AppState) (s : PokeSet) :
    (confirmSet st s).poolSets = st.poolSets := by
  unfold confirmSet; split_ifs <;> rfl

/-- confirmSet never changes the show-discarded toggle. -/
theorem confirmSet_showDiscarded (st : AppState) (s : PokeSet) :
    (confirmSet st s).showDiscarded = st.showDiscarded := by
  unfold confirmSet; split_ifs <;> rfl

/-- confirmSet never removes a confirmed id. -/
theorem confirmSet_confirmed_mono (st : AppState) (s : PokeSet) (g : Nat)
    (h : g ∈ st.confirmed) : g ∈ (confirmSet st s).confirmed := by
  unfold confirmSet; split_ifs <;> simp [h]

/-- confirmSet never removes a discarded id. -/
theorem confirmSet_discarded_mono (st : AppState) (s : PokeSet) (g : Nat)
    (h : g ∈ st.discarded) : g ∈ (confirmSet st s).discarded := by
  unfold confirmSet
  split_ifs
  · exact h
  · exact h
  · exact (mem_autoDiscard s g st.poolSets st.discarded).mpr (Or.inl h)

/-- The visibility predicate in propositional form. -/
theorem keepVisible_iff (st : AppState) (t : PokeSet) :
    keepVisible st t = true ↔
      t.global_id ∉ st.confirmed ∧
        (t.global_id ∉ st.discarded ∨ st.showDiscarded = true) := by
  unfold keepVisible
  split_ifs with h1 h2
  · exact iff_of_false (by simp) fun hc => hc.1 h1
  · refine iff_of_false (by simp) fun hc => ?_
    rcases hc.2 with hd | hs
    · exact hd h2.1
    · rw [h2.2] at hs; simp at hs
  · refine iff_of_true rfl ⟨h1, ?_⟩
    by_cases hd : t.global_id ∈ st.discarded
    · rcases Bool.eq_false_or_eq_true st.showDiscarded with hb | hb
      · exact Or.inr hb
      · exact absurd ⟨hd, hb⟩ h2
    · exact Or.inl hd

/-- Membership in the visible pool in propositional form. -/
theorem mem_visiblePool (st : AppState) (t : PokeSet) :
    t ∈ visiblePool st ↔
      t ∈ poolSortedDex st ∧ t.global_id ∉ st.confirmed ∧
        (t.global_id ∉ st.discarded ∨ st.showDiscarded = true) := by
  unfold visiblePool
  rw [List.mem_filter, keepVisible_iff]

/-- The comparator of poolSortedDex is transitive. -/
theorem dexLe_trans (a b c : PokeSet) (hab : dexLe a b) (hbc : dexLe b c) :
    dexLe a c := by
  simp only [dexLe, decide_eq_true_eq] at hab hbc ⊢
  omega

/-- The comparator of poolSortedDex is total. -/
theorem dexLe_total (a b : PokeSet) : dexLe a b || dexLe b a := by
  simp only [dexLe, Bool.or_eq_true, decide_eq_true_eq]
  omega

/-- C10: poolSortedDex is a permutation of the loaded pool sets, sorted
by ascending dex value (a missing dex number reading as 999999) with
ties broken by ascending global id. -/
theorem C10_poolSortedDex_sorted_perm (st : AppState) :
    (poolSortedDex st).Perm st.poolSets ∧
    (poolSortedDex st).Sorted (fun a b =>
      dexVal a < dexVal b ∨ (dexVal a = dexVal b ∧ a.global_id ≤ b.global_id)) := by
  constructor
  · exact List.mergeSort_perm st.poolSets dexLe
  · have h := List.sorted_mergeSort dexLe_trans dexLe_total st.poolSets
    exact List.Pairwise.imp
      (fun hab => by simpa only [dexLe, decide_eq_true_eq] using hab) h

/-- C1: confirming a set that is neither blocked by a full confirmed
list nor currently discarded appends its global id to the confirmed list
and extends the discarded set by exactly the other pool entries sharing
its species or its non-empty trimmed item. -/
theorem C1_confirmSet_appends_and_autodiscards (st : AppState) (s : PokeSet)
    (hlen : st.confirmed.length < 4) (hdisc : s.global_id ∉ st.discarded) :
    (confirmSet st s).confirmed = st.confirmed ++ [s.global_id] ∧
    ∀ g : Nat, g ∈ (confirmSet st s).discarded ↔
      g ∈ st.discarded ∨ ∃ t ∈ st.poolSets, t.global_id = g ∧ discardCond s t := by
  unfold confirmSet
  rw [if_neg (by omega), if_neg hdisc]
  exact ⟨rfl, fun g => mem_autoDiscard s g st.poolSets st.discarded⟩

/-- C1 witness: a concrete pool where confirming the first set discards
the same-species variant and the same-item holder but nothing else. -/
theorem C1_witness :
    (([] : List Nat).length < 4 ∧
      (25 : Nat) ∉ (∅ : Finset Nat)) ∧
    ((confirmSet
        { poolSets :=
            [{ global_id := 25, species := "Pikachu", item := some "X", dex_number := some 25 },
             { global_id := 26, species := "Pikachu", item := some "Y", dex_number := some 25 },
             { global_id := 27, species := "Eevee", item := some "X", dex_number := some 133 },
             { global_id := 28, species := "Snorlax", item := some "Z", dex_number := some 143 }],
          confirmed := [], discarded := ∅, showDiscarded := false }
        { global_id := 25, species := "Pikachu", item := some "X", dex_number := some 25 }).confirmed
        = [] ++ [25] ∧
      ∀ g : Nat, g ∈ (confirmSet
        { poolSets :=
            [{ global_id := 25, species := "Pikachu", item := some "X", dex_number := some 25 },
             { global_id := 26, species := "Pikachu", item := some "Y", dex_number := some 25 },
             { global_id := 27, species := "Eevee", item := some "X", dex_number := some 133 },
             { global_id := 28, species := "Snorlax", item := some "Z", dex_number := some 143 }],
          confirmed := [], discarded := ∅, showDiscarded := false }
        { global_id := 25, species := "Pikachu", item := some "X", dex_number := some 25 }).discarded ↔
        g ∈ (∅ : Finset Nat) ∨ ∃ t ∈
          [{ global_id := 25, species := "Pikachu", item := some "X", dex_number := some 25 },
           { global_id := 26, species := "Pikachu", item := some "Y", dex_number := some 25 },
           { global_id := 27, species := "Eevee", item := some "X", dex_number := some 133 },
           { global_id := 28, species := "Snorlax", item := some "Z", dex_number := some 143 }],
          t.global_id = g ∧ discardCond
            { global_id := 25, species := "Pikachu", item := some "X", dex_number := some 25 } t) :=
  ⟨⟨by decide, by decide⟩,
    C1_confirmSet_appends_and_autodiscards
      { poolSets :=
          [{ global_id := 25, species := "Pikachu", item := some "X", dex_number := some 25 },
           { global_id := 26, species := "Pikachu", item := some "Y", dex_number := some 25 },
           { global_id := 27, species := "Eevee", item := some "X", dex_number := some 133 },
           { global_id := 28, species := "Snorlax", item := some "Z", dex_number := some 143 }],
        confirmed := [], discarded := ∅, showDiscarded := false }
      { global_id := 25, species := "Pikachu", item := some "X", dex_number := some 25 }
      (by decide) (by decide)⟩

/-- C8: clicking confirm on a currently discarded set, or while four
sets are already confirmed, changes nothing at all. -/
theorem C8_confirmSet_noop (st : AppState) (s : PokeSet)
    (h : 4 ≤ st.confirmed.length ∨ s.global_id ∈ st.discarded) :
    confirmSet st s = st := by
  unfold confirmSet
  split_ifs with h1 h2
  · rfl
  · rfl
  · tauto

/-- C8 witness: confirming the discarded fixture set leaves the fixture
state unchanged. -/
theorem C8_witness : confirmSet fixState fixC1 = fixState :=
  C8_confirmSet_noop fixState fixC1 (Or.inr (by decide))

/-- Discarded-set component of toggleDiscard. -/
theorem toggleDiscard_discarded (st : AppState) (g : Nat) :
    (toggleDiscard st g).discarded =
      if g ∈ st.discarded then st.discarded.erase g
      else insert g st.discarded := rfl

/-- C9: toggleDiscard flips exactly the membership of the given id and
is its own inverse on the discarded set. -/
theorem C9_toggleDiscard_involutive_pointwise (st : AppState) (g : Nat) :
    (∀ x : Nat, x ≠ g → (x ∈ (toggleDiscard st g).discarded ↔ x ∈ st.discarded)) ∧
    (g ∈ (toggleDiscard st g).discarded ↔ g ∉ st.discarded) ∧
    (toggleDiscard (toggleDiscard st g) g).discarded = st.discarded := by
  by_cases h : g ∈ st.discarded
  · have h1 : (toggleDiscard st g).discarded = st.discarded.erase g := by
      unfold toggleDiscard; rw [if_pos h]
    have h2 : g ∉ (toggleDiscard st g).discarded := by
      rw [h1]; exact Finset.not_mem_erase g st.discarded
    refine ⟨?_, ?_, ?_⟩
    · intro x hx; rw [h1, Finset.mem_erase]; tauto
    · rw [h1]; simp [Finset.mem_erase, h]
    · rw [toggleDiscard_discarded, h1,
        if_neg (Finset.not_mem_erase g st.discarded)]
      exact Finset.insert_erase h
  · have h1 : (toggleDiscard st g).discarded = insert g st.discarded := by
      unfold toggleDiscard; rw [if_neg h]
    have h2 : g ∈ (toggleDiscard st g).discarded := by
      rw [h1]; exact Finset.mem_insert_self g st.discarded
    refine ⟨?_, ?_, ?_⟩
    · intro x hx; rw [h1, Finset.mem_insert]; tauto
    · rw [h1]; simp [Finset.mem_insert, h]
    · rw [toggleDiscard_discarded, h1,
        if_pos (Finset.mem_insert_self g st.discarded)]
      exact Finset.erase_insert h

/-- C9 witness: toggling id 9 on the fixture state keeps id 4 discarded,
makes 9 discarded, and toggling twice restores the original set. -/
theorem C9_witness :
    ((4 : Nat) ∈ (toggleDiscard fixState 9).discarded ↔ (4 : Nat) ∈ fixState.discarded) ∧
    ((9 : Nat) ∈ (toggleDiscard fixState 9).discarded ↔ (9 : Nat) ∉ fixState.discarded) ∧
    (toggleDiscard (toggleDiscard fixState 9) 9).discarded = fixState.discarded :=
  ⟨(C9_toggleDiscard_involutive_pointwise fixState 9).1 4 (by decide),
    (C9_toggleDiscard_involutive_pointwise fixState 9).2.1,
    (C9_toggleDiscard_involutive_pointwise fixState 9).2.2⟩

/-- C3: removeConfirmed drops exactly the given id from the confirmed
list, keeping the other ids in order with unchanged multiplicity, and
the discarded set is untouched. -/
theorem C3_removeConfirmed_frame (st : AppState) (g : Nat) :
    g ∉ (removeConfirmed st g).confirmed ∧
    (removeConfirmed st g).confirmed.Sublist st.confirmed ∧
    (∀ x : Nat, x ≠ g → (removeConfirmed st g).confirmed.count x = st.confirmed.count x) ∧
    (removeConfirmed st g).discarded = st.discarded := by
  refine ⟨?_, ?_, ?_, rfl⟩
  · intro hmem
    rw [removeConfirmed, List.mem_filter] at hmem
    simp at hmem
  · exact List.filter_sublist st.confirmed
  · intro x hx
    exact List.count_filter (by simpa using hx)

/-- C3 witness: removing id 2 from a confirmed list keeps the count of
id 1 and does not disturb the discarded set of the fixture state. -/
theorem C3_witness :
    (1 : Nat) ≠ 2 ∧
    ((2 : Nat) ∉ (removeConfirmed { fixState with confirmed := [1, 2] } 2).confirmed ∧
      (removeConfirmed { fixState with confirmed := [1, 2] } 2).confirmed.count 1 =
        ({ fixState with confirmed := [1, 2] } : AppState).confirmed.count 1 ∧
      (removeConfirmed { fixState with confirmed := [1, 2] } 2).discarded =
        ({ fixState with confirmed := [1, 2] } : AppState).discarded) :=
  ⟨by decide,
    (C3_removeConfirmed_frame { fixState with confirmed := [1, 2] } 2).1,
    (C3_removeConfirmed_frame { fixState with confirmed := [1, 2] } 2).2.2.1 1 (by decide),
    (C3_removeConfirmed_frame { fixState with confirmed := [1, 2] } 2).2.2.2⟩

/-- C2: confirming one more set never enlarges the possibilities: the
discarded set only grows, and with the show-discarded toggle off the
visible pool only shrinks. -/
theorem C2_confirm_monotone_shrink (st : AppState) (s : PokeSet)
    (_hshow : st.showDiscarded = false) :
    (∀ g : Nat, g ∈ st.discarded → g ∈ (confirmSet st s).discarded) ∧
    (∀ t : PokeSet, t ∈ visiblePool (confirmSet st s) → t ∈ visiblePool st) := by
  refine ⟨fun g hg => confirmSet_discarded_mono st s g hg, fun t ht => ?_⟩
  rw [mem_visiblePool] at ht ⊢
  obtain ⟨hmem, hconf, hdisc⟩ := ht
  refine ⟨?_, ?_, ?_⟩
  · unfold poolSortedDex at hmem ⊢
    rw [confirmSet_poolSets] at hmem
    exact hmem
  · exact fun hc => hconf (confirmSet_confirmed_mono st s _ hc)
  · rcases hdisc with hd | hs
    · exact Or.inl fun hc => hd (confirmSet_discarded_mono st s _ hc)
    · rw [confirmSet_showDiscarded] at hs
      exact Or.inr hs

/-- C2 witness: on the fixture state the discarded id 4 stays discarded
after confirming, and visibility of the Snorlax fixture only shrinks. -/
theorem C2_witness :
    fixState.showDiscarded = false ∧
    ((4 : Nat) ∈ fixState.discarded → (4 : Nat) ∈ (confirmSet fixState fixA1).discarded) ∧
    (fixC1 ∈ visiblePool (confirmSet fixState fixA1) → fixC1 ∈ visiblePool fixState) :=
  ⟨rfl, (C2_confirm_monotone_shrink fixState fixA1 rfl).1 4,
    (C2_confirm_monotone_shrink fixState fixA1 rfl).2 fixC1⟩

/-- C6: an empty trimmed item imposes no item-clause exclusion, in both
directions: confirming a set with empty trimmed item discards exactly
the other variants of its species, and a pool entry whose own trimmed
item is empty is only ever added through the species rule. -/
theorem C6_empty_item_no_exclusion (st : AppState) (s : PokeSet)
    (hlen : st.confirmed.length < 4) (hdisc : s.global_id ∉ st.discarded) :
    (itemKey s = "" →
      ∀ g : Nat, g ∈ (confirmSet st s).discarded ↔
        g ∈ st.discarded ∨ ∃ t ∈ st.poolSets,
          t.global_id = g ∧ t.global_id ≠ s.global_id ∧ t.species = s.species) ∧
    (∀ (d : Finset Nat) (t : PokeSet), itemKey t = "" →
      discardStep s d t = d ∨
        (t.global_id ≠ s.global_id ∧ t.species = s.species ∧
          discardStep s d t = insert t.global_id d)) := by
  constructor
  · intro hs g
    have hd : g ∈ (confirmSet st s).discarded ↔
        g ∈ st.discarded ∨ ∃ t ∈ st.poolSets, t.global_id = g ∧ discardCond s t := by
      unfold confirmSet
      rw [if_neg (by omega), if_neg hdisc]
      exact mem_autoDiscard s g st.poolSets st.discarded
    rw [hd]
    simp [discardCond, hs]
  · intro d t ht
    unfold discardStep
    split_ifs with h1 h2 h3
    · exact Or.inl rfl
    · exact Or.inr ⟨h1, h2, rfl⟩
    · exact absurd ht h3.2.1
    · exact Or.inl rfl

/-- C6 witness: confirming the Togepi fixture, whose item trims to the
empty string, and checking the Pikachu id and the step on the Togepi
entry itself. -/
theorem C6_witness :
    (fixState.confirmed.length < 4 ∧ fixD1.global_id ∉ fixState.discarded ∧
      itemKey fixD1 = "") ∧
    ((1 : Nat) ∈ (confirmSet fixState fixD1).discarded ↔
      (1 : Nat) ∈ fixState.discarded ∨ ∃ t ∈ fixState.poolSets,
        t.global_id = 1 ∧ t.global_id ≠ fixD1.global_id ∧ t.species = fixD1.species) ∧
    (discardStep fixD1 fixState.discarded fixD1 = fixState.discarded ∨
      (fixD1.global_id ≠ fixD1.global_id ∧ fixD1.species = fixD1.species ∧
        discardStep fixD1 fixState.discarded fixD1 =
          insert fixD1.global_id fixState.discarded)) :=
  ⟨⟨by decide, by decide, by decide⟩,
    (C6_empty_item_no_exclusion fixState fixD1 (by decide) (by decide)).1 (by decide) 1,
    (C6_empty_item_no_exclusion fixState fixD1 (by decide) (by decide)).2
      fixState.discarded fixD1 (by decide)⟩

/-- C7: the deduction handlers are deterministic functions of the pool,
the confirmed list and the discarded set alone: two states agreeing on
those three components produce equal confirmed lists and equal discarded
sets under confirmSet, toggleDiscard and removeConfirmed, whatever the
rest of the state holds. -/
theorem C7_deterministic (s1 s2 : AppState) (x : PokeSet) (g1 g2 : Nat)
    (hp : s1.poolSets = s2.poolSets) (hc : s1.confirmed = s2.confirmed)
    (hd : s1.discarded = s2.discarded) :
    (confirmSet s1 x).confirmed = (confirmSet s2 x).confirmed ∧
    (confirmSet s1 x).discarded = (confirmSet s2 x).discarded ∧
    (toggleDiscard s1 g1).confirmed = (toggleDiscard s2 g1).confirmed ∧
    (toggleDiscard s1 g1).discarded = (toggleDiscard s2 g1).discarded ∧
    (removeConfirmed s1 g2).confirmed = (removeConfirmed s2 g2).confirmed ∧
    (removeConfirmed s1 g2).discarded = (removeConfirmed s2 g2).discarded := by
  obtain ⟨p1, c1, d1, b1⟩ := s1
  obtain ⟨p2, c2, d2, b2⟩ := s2
  have hp2 : p1 = p2 := hp
  have hc2 : c1 = c2 := hc
  have hd2 : d1 = d2 := hd
  subst hp2; subst hc2; subst hd2
  refine ⟨?_, ?_, rfl, rfl, rfl, rfl⟩
  · unfold confirmSet; split_ifs <;> rfl
  · unfold confirmSet; split_ifs <;> rfl

/-- C7 witness: two fixture states differing only in the show-discarded
toggle agree on all handler results. -/
theorem C7_witness :
    (confirmSet fixState fixA1).confirmed =
      (confirmSet { fixState with showDiscarded := true } fixA1).confirmed ∧
    (confirmSet fixState fixA1).discarded =
      (confirmSet { fixState with showDiscarded := true } fixA1).discarded ∧
    (toggleDiscard fixState 9).confirmed =
      (toggleDiscard { fixState with showDiscarded := true } 9).confirmed ∧
    (toggleDiscard fixState 9).discarded =
      (toggleDiscard { fixState with showDiscarded := true } 9).discarded ∧
    (removeConfirmed fixState 1).confirmed =
      (removeConfirmed { fixState with showDiscarded := true } 1).confirmed ∧
    (removeConfirmed fixState 1).discarded =
      (removeConfirmed { fixState with showDiscarded := true } 1).discarded :=
  C7_deterministic fixState { fixState with showDiscarded := true } fixA1 9 1 rfl rfl rfl

/-- Appending a fresh element keeps a list duplicate-free. -/
theorem nodup_append_singleton {l : List Nat} {g : Nat}
    (h1 : l.Nodup) (h2 : g ∉ l) : (l ++ [g]).Nodup := by
  simp [List.nodup_append, h1, h2]

/-- C5 counterexample: confirmSet does not preserve pairwise
distinctness of the confirmed list. The bad state satisfies the
invariant, but confirming the already-confirmed Pikachu fixture, whose
id is neither discarded nor blocking via the length guard, appends its
id a second time. -/
theorem C5_counterexample :
    teamInv badState.confirmed ∧
      ¬ teamInv (confirmSet badState fixA1).confirmed := by decide

/-- C5 amended: every handler keeps the list at length at most four;
markSeen, unmarkSeen, removeConfirmed and resetAll preserve pairwise
distinctness, and confirmSet preserves it provided the confirmed set is
not already in the confirmed list; markSeen of an already-seen id, or
with four ids present, leaves the list unchanged. -/
theorem C5_amended_invariant_preservation (seen : List Nat) (g : Nat)
    (st : AppState) (s : PokeSet) (g2 : Nat)
    (hseen : teamInv seen) (hst : teamInv st.confirmed) :
    teamInv (markSeen seen g) ∧
    teamInv (unmarkSeen seen g) ∧
    teamInv (removeConfirmed st g2).confirmed ∧
    teamInv (resetAll st).confirmed ∧
    (confirmSet st s).confirmed.length ≤ 4 ∧
    (s.global_id ∉ st.confirmed → (confirmSet st s).confirmed.Nodup) ∧
    (g ∈ seen → markSeen seen g = seen) ∧
    (4 ≤ seen.length → markSeen seen g = seen) := by
  obtain ⟨hlen, hnd⟩ := hseen
  obtain ⟨hlen2, hnd2⟩ := hst
  refine ⟨?_, ?_, ?_, ?_, ?_, ?_, ?_, ?_⟩
  · unfold markSeen
    split_ifs with h1 h2
    · exact ⟨hlen, hnd⟩
    · exact ⟨hlen, hnd⟩
    · constructor
      · rw [List.length_append]
        simp only [List.length_singleton]
        omega
      · exact nodup_append_singleton hnd h1
  · constructor
    · exact le_trans (List.length_filter_le _ _) hlen
    · exact hnd.filter _
  · constructor
    · exact le_trans (List.length_filter_le _ _) hlen2
    · exact hnd2.filter _
  · exact ⟨by simp [resetAll], by simp [resetAll]⟩
  · unfold confirmSet
    split_ifs with h1 h2
    · exact hlen2
    · exact hlen2
    · rw [List.length_append]
      simp only [List.length_singleton]
      omega
  · intro hnotin
    unfold confirmSet
    split_ifs with h1 h2
    · exact hnd2
    · exact hnd2
    · exact nodup_append_singleton hnd2 hnotin
  · intro h
    unfold markSeen
    rw [if_pos h]
  · intro h
    unfold markSeen
    split_ifs with h1
    · rfl
    · rfl

/-- C5 witness: the amended preservation statement instantiated on the
fixture state with a fresh id. -/
theorem C5_witness :
    (teamInv [1, 2] ∧ teamInv fixState.confirmed) ∧
    (teamInv (markSeen [1, 2] 9) ∧
      teamInv (unmarkSeen [1, 2] 9) ∧
      teamInv (removeConfirmed fixState 2).confirmed ∧
      teamInv (resetAll fixState).confirmed ∧
      (confirmSet fixState fixA1).confirmed.length ≤ 4 ∧
      (fixA1.global_id ∉ fixState.confirmed →
        (confirmSet fixState fixA1).confirmed.Nodup) ∧
      ((9 : Nat) ∈ [1, 2] → markSeen [1, 2] 9 = [1, 2]) ∧
      (4 ≤ ([1, 2] : List Nat).length → markSeen [1, 2] 9 = [1, 2])) :=
  ⟨⟨by decide, by decide⟩,
    C5_amended_invariant_preservation [1, 2] 9 fixState fixA1 2
      (by decide) (by decide)⟩

/-- C4: when every seen id resolves in the pool but two entries share a
species_key, the modelled engine fails with the structured
ConflictingObservation error and returns no result. -/
theorem C4_solve_conflicting_observation (pool : List PokeSet) (teamSize : Nat)
    (ids : List Nat)
    (hres : ∀ g ∈ ids, (findSet pool g).isSome)
    (hconf : ¬ (ids.filterMap (fun g => (findSet pool g).map PokeSet.species)).Nodup) :
    solve pool teamSize ids = Except.error SolveError.ConflictingObservation ∧
    ∀ r : SolveResult, solve pool teamSize ids ≠ Except.ok r := by
  have h1 : ¬ (ids.any (fun g => (findSet pool g).isNone) = true) := by
    rw [List.any_eq_true]
    rintro ⟨g, hg, hnone⟩
    have hsome := hres g hg
    rw [Option.isNone_iff_eq_none] at hnone
    rw [hnone] at hsome
    simp at hsome
  constructor
  · unfold solve
    rw [if_neg h1, if_pos hconf]
  · intro r hr
    unfold solve at hr
    rw [if_neg h1, if_pos hconf] at hr
    exact Except.noConfusion hr

/-- C4 witness: two resolvable observations of the same species fail
with ConflictingObservation on a concrete two-set pool. -/
theorem C4_witness :
    ((∀ g ∈ ([1, 2] : List Nat), (findSet [fixA1, fixA2] g).isSome) ∧
      ¬ (([1, 2] : List Nat).filterMap
          (fun g => (findSet [fixA1, fixA2] g).map PokeSet.species)).Nodup) ∧
    solve [fixA1, fixA2] 4 [1, 2] = Except.error SolveError.ConflictingObservation :=
  ⟨⟨by decide, by decide⟩,
    (C4_solve_conflicting_observation [fixA1, fixA2] 4 [1, 2]
      (by decide) (by decide)).1⟩

